import Mathlib

/-!
Verification of the NEAT repository's specification against its code.

The repository contains two external drivers (`src/main.py` and
`src/connect4/connect4.py`) that drive a NEAT (NeuroEvolution of Augmenting
Topologies) engine through a Connect-4 game.  The drivers are embedded here
directly from the source.  The NEAT core (`neat` package), the `Connect4`
game class and the `mattslib` helpers are declared in `setup.py` but their
source is not part of the repository snapshot; where a claim depends on
them they are modelled from the specification, as indicated in each
definition's doc comment.
-/

namespace NEATSpec

/-- Player types from `PLAYER_TYPES = ['Human', 'NEAT', '1', '1000', '6000']`:
index 0 is Human, index 1 is NEAT (evolving), the rest are pretrained
generation snapshots. -/
inductive PlayerType where
  | human
  | neat
  | pretrained
deriving DecidableEq

/-- `calculateFitness(result)` from `src/connect4/connect4.py` lines 63-78,
with the globals it reads (`connect4.current_player`, `connect4.opponent`,
`connect4.turn`) made explicit arguments.  Mirrors the `if/elif` chain:
`+100` when `result == current_player`, `+25` when `result == 0`,
`-100` when `result == opponent`, and always `- turn`. -/
def calculateFitness (result currentPlayer opponent turn : Int) : Int :=
  (if result = currentPlayer then (100 : Int)
   else if result = 0 then 25
   else if result = opponent then -100
   else 0) - turn

/-- One iteration of a driver's main loop, restricted to the observables
that decide whether the NEAT API is called for a given player: whether a
match is in progress (`connect4.match`), whether the frame gate
`frame_count >= max_fps / speed` passed, the player's configured type, and
the value `shouldEvolve()` returns for that player's population in this
iteration. -/
structure DriverIter where
  matchActive : Bool
  frameReady : Bool
  ptype : PlayerType
  shouldEvolve : Bool
deriving DecidableEq

/-- Whether `src/main.py`'s move block (lines 404-414) calls `getGenome()`:
it requires `connect4.match`, a non-human player, the frame gate, and the
short-circuit guard `players[...] == PLAYER_TYPES[1] and
neats[...].shouldEvolve()`. -/
def mainPyMoveGetGenome (it : DriverIter) : Bool :=
  it.matchActive && (it.ptype != PlayerType.human) && it.frameReady
    && (it.ptype == PlayerType.neat) && it.shouldEvolve

/-- Whether `src/main.py`'s end-of-match fitness block (lines 427-434) calls
`getGenome()` for a player: guarded by `players[...] == PLAYER_TYPES[1] and
neats[...].shouldEvolve()`. -/
def mainPyFitGetGenome (it : DriverIter) : Bool :=
  !it.matchActive && it.frameReady && (it.ptype == PlayerType.neat)
    && it.shouldEvolve

/-- Whether `src/connect4/connect4.py`'s move block (lines 531-545) calls
`getGenome()`: it does so for every NEAT player as soon as the frame gate
passes, before `shouldEvolve()` is consulted. -/
def c4MoveGetGenome (it : DriverIter) : Bool :=
  it.matchActive && (it.ptype != PlayerType.human) && it.frameReady
    && (it.ptype == PlayerType.neat)

/-- Whether `src/connect4/connect4.py`'s move block closes the program:
`if not neats[cp].shouldEvolve() and players[cp] == PLAYER_TYPES[1]:
close()`, reached after the `getGenome()` call of the same block. -/
def c4MoveCloses (it : DriverIter) : Bool :=
  it.matchActive && (it.ptype != PlayerType.human) && it.frameReady
    && (!it.shouldEvolve && (it.ptype == PlayerType.neat))

/-- Whether `src/connect4/connect4.py`'s end-of-match fitness block
(lines 557-563) calls `getGenome()` for a player: guarded only by
`players[player_key] == PLAYER_TYPES[1]`, never by `shouldEvolve()`. -/
def c4FitGetGenome (it : DriverIter) : Bool :=
  !it.matchActive && it.frameReady && (it.ptype == PlayerType.neat)

/-- The fitness `src/connect4/connect4.py` assigns at end of match: each
NEAT player's current genome receives `calculateFitness(result)` evaluated
against the same game globals. -/
def endOfMatchFitness (result currentPlayer opponent turn : Int) : Int :=
  calculateFitness result currentPlayer opponent turn

/-- The per-player fitness assignments performed by the loop
`for player_key in [cp, connect4.opponent]` of
`src/connect4/connect4.py` lines 559-563: each key whose player type is
NEAT has its current genome's fitness set to `calculateFitness(result)`. -/
def endOfMatchAssignments (result currentPlayer opponent turn : Int)
    (ptype : Int → PlayerType) (keys : List Int) : List (Int × Int) :=
  keys.filterMap (fun k =>
    if ptype k = PlayerType.neat then
      some (k, endOfMatchFitness result currentPlayer opponent turn)
    else none)

/-- Result of `setupAi`: either `NEAT.load` was called on a save file, or a
fresh engine was built with `generate(inputs, outputs, population=...)`. -/
inductive SetupResult where
  | loaded (file : String)
  | generated (population : Nat)
deriving DecidableEq

/-- Save-file name `ai_{player_id}.neat` checked by both drivers for a NEAT
player. -/
def neatSaveFile (playerId : Nat) : String :=
  "ai_" ++ toString playerId ++ ".neat"

/-- Save-file name `ai_{player_id}_gen_{players[player_id]}.neat` checked by
both drivers for a pretrained player (the player-type string is the
generation label). -/
def genSaveFile (playerId : Nat) (genLabel : String) : String :=
  "ai_" ++ toString playerId ++ "_gen_" ++ genLabel ++ ".neat"

/-- `setupAi` from `src/main.py` lines 85-106, with `os.path.isfile`
abstracted as an oracle: NEAT players load `ai_{id}.neat` if it exists,
pretrained players load `ai_{id}_gen_{label}.neat` if it exists, and
otherwise a fresh `NEAT` is generated with population 100. -/
def setupAiMain (isfile : String → Bool) (playerId : Nat)
    (ptype : PlayerType) (genLabel : String) : SetupResult :=
  if ptype = PlayerType.neat then
    if isfile (neatSaveFile playerId) then SetupResult.loaded (neatSaveFile playerId)
    else SetupResult.generated 100
  else
    if isfile (genSaveFile playerId genLabel) then
      SetupResult.loaded (genSaveFile playerId genLabel)
    else SetupResult.generated 100

/-- `setupAi` from `src/connect4/connect4.py` lines 99-119: identical
control flow, but the fresh engine is generated with population 50. -/
def setupAiC4 (isfile : String → Bool) (playerId : Nat)
    (ptype : PlayerType) (genLabel : String) : SetupResult :=
  if ptype = PlayerType.neat then
    if isfile (neatSaveFile playerId) then SetupResult.loaded (neatSaveFile playerId)
    else SetupResult.generated 50
  else
    if isfile (genSaveFile playerId genLabel) then
      SetupResult.loaded (genSaveFile playerId genLabel)
    else SetupResult.generated 50

/-- Modelled from the spec: a `Node` is a typed vertex with a stable integer
identity and a `layer_type ∈ \x7bInput, Hidden, Output\x7d` (§3).  The `neat`
package that defines it is declared in `setup.py` but is not under `src/`. -/
inductive LayerType where
  | input
  | hidden
  | output
deriving DecidableEq

structure NeatNode where
  id : Nat
  layer_type : LayerType
deriving DecidableEq

/-- Modelled from the spec: a `Connection` is a directed weighted edge
`(input_node_id, output_node_id)` with an `enabled` flag and a global
`innovation_id` (§3).  Weights are modelled as rationals. -/
structure NeatConnection where
  in_node : Nat
  out_node : Nat
  weight : Rat
  enabled : Bool
  innovation : Nat
deriving DecidableEq

/-- Modelled from the spec: a `Genome` is a set of nodes plus a set of
connections with a scalar `fitness` set externally by the driver (§3). -/
structure Genome where
  nodes : List NeatNode
  connections : List NeatConnection
  fitness : Int
deriving DecidableEq

/-- Modelled from the spec: a `Species` holds a representative genome, an
ordered collection of member genomes and a stagnation counter (§3). -/
structure Species where
  representative : Genome
  members : List Genome
  stagnation : Nat
deriving DecidableEq

/-- Modelled from the spec: a `Population` owns the species list, the
`generation` counter, the step-wise iteration indices `current_species` and
`current_genome`, the running `best_genome`, and the global innovation
counter (§3). -/
structure Population where
  species : List Species
  generation : Nat
  current_species : Nat
  current_genome : Nat
  best_genome : Genome
  innovation : Nat
deriving DecidableEq

/-- The genome at `(current_species, current_genome)`, when those indices
are in range. -/
def currentGenomeOf (p : Population) : Option Genome :=
  (p.species[p.current_species]?).bind (fun s => s.members[p.current_genome]?)

/-- Modelled from the spec: `getGenome() -> Genome` returns the genome at
`(current_species, current_genome)` for external evaluation and does not
advance state (§4.3); written state-passing so that the absence of
mutation is explicit. -/
def getGenome (p : Population) : Option Genome × Population :=
  (currentGenomeOf p, p)

/-- `n + 1` consecutive `getGenome()` calls threading the returned
population state, as the driver's loop would perform them with no
intervening `nextGenome`. -/
def getGenomeRepeat (p : Population) : Nat → Option Genome × Population
  | 0 => getGenome p
  | n + 1 => getGenome (getGenomeRepeat p n).2

/-- Modelled from the spec: `getInfo() -> \x7bgeneration, current_species,
current_genome, fitness\x7d`, a read-only snapshot for observability (§4.3),
rendered as a key-value list as the driver's Info panel consumes it. -/
def getInfo (p : Population) : List (String × Int) :=
  [("generation", (p.generation : Int)),
   ("current_species", (p.current_species : Int)),
   ("current_genome", (p.current_genome : Int)),
   ("fitness", p.best_genome.fitness)]

/-- State-passing form of `getInfo`, making "never mutates the population
state" a provable statement. -/
def getInfoSt (p : Population) : List (String × Int) × Population :=
  (getInfo p, p)

/-- Replace the element at an index of a list, leaving the list unchanged
when the index is out of range. -/
def modifyIdx (f : α → α) : Nat → List α → List α
  | _, [] => []
  | 0, x :: xs => f x :: xs
  | n + 1, x :: xs => x :: modifyIdx f n xs

/-- The driver's `current_genome.fitness = value` assignment: sets the
fitness of the genome at `(current_species, current_genome)`. -/
def setCurrentFitness (f : Int) (p : Population) : Population :=
  let updGenome := fun (g : Genome) => { g with fitness := f }
  let updSpecies := fun (s : Species) =>
    { s with members := modifyIdx updGenome p.current_genome s.members }
  { p with species := modifyIdx updSpecies p.current_species p.species }

/-- Modelled from the spec: the persisted file layout encodes the flat
genome list (node/connection graph and per-genome fitness), the species
membership (sizes, representatives and stagnation counters), the iteration
indices, the best genome, the generation counter and the global innovation
counter — sufficient for exact resumption (§4.5, §6). -/
structure SaveData where
  genomes : List Genome
  sizes : List Nat
  reps : List Genome
  stags : List Nat
  generation : Nat
  current_species : Nat
  current_genome : Nat
  best_genome : Genome
  innovation : Nat
deriving DecidableEq

/-- Modelled from the spec: `save` serializes the full population state,
flattening species members into one genome list plus membership sizes
(§4.5). -/
def toSave (p : Population) : SaveData :=
  { genomes := p.species.flatMap Species.members,
    sizes := p.species.map (fun s => s.members.length),
    reps := p.species.map Species.representative,
    stags := p.species.map Species.stagnation,
    generation := p.generation,
    current_species := p.current_species,
    current_genome := p.current_genome,
    best_genome := p.best_genome,
    innovation := p.innovation }

/-- Regroup a flat list into chunks of the given sizes. -/
def splitSizes : List Nat → List α → List (List α)
  | [], _ => []
  | n :: ns, xs => xs.take n :: splitSizes ns (xs.drop n)

/-- Modelled from the spec: `load` reconstructs the exact structural and
numeric state from the persisted layout, the global innovation counter
continuing from its saved value (§4.5). -/
def ofSave (d : SaveData) : Population :=
  { species := List.zipWith
      (fun ms rs => { representative := rs.1, members := ms, stagnation := rs.2 })
      (splitSizes d.sizes d.genomes) (d.reps.zip d.stags),
    generation := d.generation,
    current_species := d.current_species,
    current_genome := d.current_genome,
    best_genome := d.best_genome,
    innovation := d.innovation }

/-- Modelled from the spec: `nextGenome(checkpoint_name)` records the
just-evaluated genome into `best_genome` if it improves the running best,
advances `current_genome`; on exhausting the current species' members it
advances `current_species`; on exhausting all species it replaces the
species list by the reproduction result, increments the generation counter,
persists a checkpoint under `checkpoint_name`, and resets the iteration
indices to the start (§4.3).  Reproduction itself is an arbitrary function
argument `repro`; the returned pair carries the population and the
checkpoint write, if any. -/
def nextGenome (repro : Population → List Species) (name : String)
    (p : Population) : Population × Option (String × SaveData) :=
  let best :=
    match currentGenomeOf p with
    | some g => if p.best_genome.fitness < g.fitness then g else p.best_genome
    | none => p.best_genome
  let p1 := { p with best_genome := best }
  match p1.species[p1.current_species]? with
  | none => (p1, none)
  | some s =>
    if p1.current_genome + 1 < s.members.length then
      ({ p1 with current_genome := p1.current_genome + 1 }, none)
    else if p1.current_species + 1 < p1.species.length then
      ({ p1 with current_species := p1.current_species + 1, current_genome := 0 }, none)
    else
      let p2 := { p1 with species := repro p1, generation := p1.generation + 1 }
      ({ p2 with current_species := 0, current_genome := 0 },
       some (name, toSave p2))

/-- Modelled from the spec: the minimal initial genome built by `generate`
has Input and Output nodes only (no hidden nodes) with fully-connected
initial wiring, fitness defaulting to zero (§3, §4.3). -/
def minimalGenome (inputs outputs : Nat) : Genome :=
  { nodes :=
      (List.range inputs).map (fun i => { id := i, layer_type := LayerType.input })
        ++ (List.range outputs).map
            (fun o => { id := inputs + o, layer_type := LayerType.output }),
    connections :=
      (List.range inputs).flatMap (fun i =>
        (List.range outputs).map (fun o =>
          { in_node := i, out_node := inputs + o, weight := 1,
            enabled := true, innovation := i * outputs + o })),
    fitness := 0 }

/-- Modelled from the spec: `generate(input_count, output_count,
population_size)` builds `population_size` minimal genomes, assigns them to
an initial single species, and resets the generation counter to 0 (§4.3). -/
def generate (inputs outputs population : Nat) : Population :=
  let g := minimalGenome inputs outputs
  { species := [{ representative := g, members := List.replicate population g,
                  stagnation := 0 }],
    generation := 0,
    current_species := 0,
    current_genome := 0,
    best_genome := g,
    innovation := inputs * outputs }

/-- One step of the spec's end-to-end scenario (§8): the driver assigns
fitness `10 - index` to the current genome and calls `nextGenome`. -/
def scenarioStep (repro : Population → List Species) (i : Nat)
    (p : Population) : Population :=
  (nextGenome repro "ai_1" (setCurrentFitness ((10 : Int) - i) p)).1

/-- The spec's end-to-end scenario (§8): start from
`generate(inputs=4, outputs=1, population_size=10)` and run ten
fitness-assignment / `nextGenome` steps. -/
def scenarioC4 (repro : Population → List Species) : Population :=
  (List.range 10).foldl (fun p i => scenarioStep repro i p) (generate 4 1 10)

/-- Modelled from the spec: the error taxonomy surfaced to callers (§7). -/
inductive NeatError where
  | invalidInputSize
  | corruptSaveData
deriving DecidableEq

/-- The Input-type nodes of a genome, in fixed (insertion) order. -/
def inputNodes (g : Genome) : List NeatNode :=
  g.nodes.filter (fun n => n.layer_type == LayerType.input)

/-- The Output-type nodes of a genome, in fixed (insertion) order. -/
def outputNodes (g : Genome) : List NeatNode :=
  g.nodes.filter (fun n => n.layer_type == LayerType.output)

/-- Modelled from the spec: topological depth of a node — Input nodes have
depth 0, every other node's depth is one more than the maximum depth of the
sources of its enabled incoming connections (§4.4); fuel bounds the
recursion (cycles are rejected at mutation time per §4.4). -/
def depthOf (g : Genome) : Nat → Nat → Nat
  | 0, _ => 0
  | fuel + 1, nid =>
    match g.nodes.find? (fun n => n.id == nid) with
    | none => 0
    | some n =>
      if n.layer_type == LayerType.input then 0
      else
        ((g.connections.filter (fun c => c.enabled && c.out_node == nid)).map
          (fun c => depthOf g fuel c.in_node + 1)).foldl max 0

/-- Activation value recorded for a node id, zero if not yet evaluated. -/
def lookupAct (acts : List (Nat × Rat)) (nid : Nat) : Rat :=
  match acts.find? (fun a => a.1 == nid) with
  | some a => a.2
  | none => 0

/-- Modelled from the spec: the evaluation pass of `forward` — inputs are
assigned to Input nodes in fixed order, then non-input nodes are evaluated
in ascending depth order, each activation being the nonlinearity `act`
applied to the weighted sum of enabled incoming source activations
(§4.4). -/
def forwardActs (act : Rat → Rat) (g : Genome) (inputs : List Rat) :
    List (Nat × Rat) :=
  let fuel := g.nodes.length
  let initActs := ((inputNodes g).zip inputs).map (fun a => (a.1.id, a.2))
  let nonInputs := g.nodes.filter (fun n => n.layer_type != LayerType.input)
  let ordered := (List.range (fuel + 1)).flatMap
    (fun d => nonInputs.filter (fun n => depthOf g fuel n.id == d))
  let evalNode := fun (acts : List (Nat × Rat)) (n : NeatNode) =>
    let s := (g.connections.filter (fun c => c.enabled && c.out_node == n.id)).foldl
      (fun acc c => acc + c.weight * lookupAct acts c.in_node) 0
    acts ++ [(n.id, act s)]
  ordered.foldl evalNode initActs

/-- The Output-node activations of the evaluation pass, one per Output
node in fixed order. -/
def forwardOutputs (act : Rat → Rat) (g : Genome) (inputs : List Rat) :
    List Rat :=
  (outputNodes g).map (fun n => lookupAct (forwardActs act g inputs) n.id)

/-- Modelled from the spec: `forward(inputs)` fails with `InvalidInputSize`
exactly when the input count does not match the number of Input nodes, and
otherwise returns the Output-node activations (§4.1). -/
def forward (act : Rat → Rat) (g : Genome) (inputs : List Rat) :
    Except NeatError (List Rat) :=
  if inputs.length ≠ (inputNodes g).length then
    Except.error NeatError.invalidInputSize
  else
    Except.ok (forwardOutputs act g inputs)

/-- The valid moves scanned by `neatMove` (`src/main.py` lines 116-120,
`src/connect4/connect4.py` lines 129-133): for each column `i` in
`range(COLUMNS)` the pair `getPossibleMove(i)` is kept when its first
component differs from `INVALID_MOVE`.  `Connect4.getPossibleMove` is not
under `src/`, so it is abstracted as the oracle `gpm`. -/
def validMoves (cols : Nat) (gpm : Nat → Int × Nat) (invalid : Int) :
    List (Int × Nat) :=
  ((List.range cols).map gpm).filter (fun m => m.1 != invalid)

/-- `neatMove(genome)` from `src/main.py` lines 109-131 and
`src/connect4/connect4.py` lines 122-144: collect the valid moves, score
each by the summed `genome.forward` outputs over its piece slices
(abstracted as `score`, since `Connect4.getPieceSlices` and the `neat`
package are not under `src/`), group moves by score
(`ml.dict.combineByValues`), take the maximal score via
`ml.list.findMaxMin` (`none` on an empty move set, where the Python
helpers fail), pick among the maximal moves at random (`random.choice`,
abstracted as the oracle `choose`), and return the chosen move's column
component `move[1]`. -/
def neatMove (cols : Nat) (gpm : Nat → Int × Nat) (invalid : Int)
    (score : Int × Nat → Rat)
    (choose : List (Int × Nat) → Option (Int × Nat)) : Option Nat :=
  (((validMoves cols gpm invalid).map score).max?).bind
    (fun s =>
      (choose ((validMoves cols gpm invalid).filter
        (fun m => decide (score m = s)))).map (fun m => m.2))

/-- Concrete genome used to exercise `forward`: two Input nodes, one
Output node, no connections yet. -/
def g2i1o : Genome :=
  { nodes := [{ id := 0, layer_type := LayerType.input },
              { id := 1, layer_type := LayerType.input },
              { id := 2, layer_type := LayerType.output }],
    connections := [], fitness := 0 }

/-! Theorems. -/

/-- Helper: a `some` result of `List.max?` over rationals is a member and
an upper bound. -/
theorem ratMaxSome (l : List Rat) (a : Rat) (h : l.max? = some a) :
    a ∈ l ∧ ∀ b ∈ l, b ≤ a := by
  have inst : Std.Antisymm (fun (x1 x2 : Rat) => x1 ≤ x2) :=
    ⟨fun h1 h2 => le_antisymm h1 h2⟩
  rw [List.max?_eq_some_iff] at h
  · exact h
  all_goals simp [le_total]

/-- C1 (counterexample): the claim "getGenome() is called on a population
only if shouldEvolve() returned true for it in that iteration" fails for
the `src/connect4/connect4.py` driver: in the iteration with an active
match, a passed frame gate, a NEAT player and `shouldEvolve() = false`,
the move block still calls `getGenome()`. -/
theorem c1_counterexample :
    c4MoveGetGenome { matchActive := true, frameReady := true,
                      ptype := PlayerType.neat, shouldEvolve := false } = true ∧
    ({ matchActive := true, frameReady := true, ptype := PlayerType.neat,
       shouldEvolve := false } : DriverIter).shouldEvolve = false := by
  decide

/-- C1 (amended): in `src/main.py` both the move block and the fitness
block call `getGenome()` only in iterations where `shouldEvolve()` returned
true; in `src/connect4/connect4.py` both blocks call `getGenome()` for
NEAT players independently of the value of `shouldEvolve()`, and when the
move block closes the program because `shouldEvolve()` is false it has
already called `getGenome()` in that same iteration. -/
theorem c1_amended (it : DriverIter) :
    (mainPyMoveGetGenome it = true → it.shouldEvolve = true) ∧
    (mainPyFitGetGenome it = true → it.shouldEvolve = true) ∧
    (c4MoveGetGenome it
      = c4MoveGetGenome { it with shouldEvolve := !it.shouldEvolve }) ∧
    (c4MoveCloses it = true → c4MoveGetGenome it = true) ∧
    (c4FitGetGenome it
      = c4FitGetGenome { it with shouldEvolve := !it.shouldEvolve }) := by
  obtain ⟨m, f, p, s⟩ := it
  cases m <;> cases f <;> cases p <;> cases s <;> decide

/-- Witness for the amended C1 at a concrete iteration. -/
theorem c1_amended_witness :
    ({ matchActive := true, frameReady := true, ptype := PlayerType.neat,
       shouldEvolve := true } : DriverIter).shouldEvolve = true :=
  (c1_amended { matchActive := true, frameReady := true,
                ptype := PlayerType.neat, shouldEvolve := true }).1 (by decide)

/-- C2: the driver's fitness function `calculateFitness` depends only on
the match result, the player identities and the turn count, and yields
`+100` when the evaluated (current) player won, `+25` on a draw and
`-100` when the opponent won, always minus the number of turns played. -/
theorem calculateFitness_cases (cp opp turn r : Int) (hcp : cp ≠ 0)
    (hco : opp ≠ cp) (hopp : opp ≠ 0) :
    (r = cp → calculateFitness r cp opp turn = 100 - turn) ∧
    (r = 0 → calculateFitness r cp opp turn = 25 - turn) ∧
    (r = opp → calculateFitness r cp opp turn = -100 - turn) := by
  refine ⟨fun h => ?_, fun h => ?_, fun h => ?_⟩ <;> subst h
  · simp [calculateFitness]
  · simp [calculateFitness, Ne.symm hcp]
  · simp [calculateFitness, hco, hopp]

/-- Witness for C2 with players 1 and 2 after 7 turns. -/
theorem calculateFitness_cases_witness :
    calculateFitness 1 1 2 7 = 100 - 7 ∧ calculateFitness 0 1 2 7 = 25 - 7 ∧
      calculateFitness 2 1 2 7 = -100 - 7 :=
  ⟨(calculateFitness_cases 1 2 7 1 (by decide) (by decide) (by decide)).1 rfl,
   (calculateFitness_cases 1 2 7 0 (by decide) (by decide) (by decide)).2.1 rfl,
   (calculateFitness_cases 1 2 7 2 (by decide) (by decide) (by decide)).2.2 rfl⟩

/-- C3: any number of consecutive `getGenome()` calls, with no intervening
`nextGenome()`, all return the genome at `(current_species,
current_genome)` of the original population, and leave the population
state exactly as it was. -/
theorem getGenome_no_advance (p : Population) (n : Nat) :
    getGenomeRepeat p n = (currentGenomeOf p, p) := by
  induction n with
  | zero => rfl
  | succ n ih => simp [getGenomeRepeat, ih, getGenome]

/-- Witness for C3 on a freshly generated population with three repeated
calls. -/
theorem getGenome_no_advance_witness :
    getGenomeRepeat (generate 4 1 10) 3
      = (currentGenomeOf (generate 4 1 10), generate 4 1 10) :=
  getGenome_no_advance (generate 4 1 10) 3

/-- C7: `getInfo()` returns a snapshot whose keys are exactly
`generation`, `current_species`, `current_genome` and `fitness`, and the
state-passing form returns the population unchanged. -/
theorem getInfo_keys_and_pure (p : Population) :
    (getInfo p).map Prod.fst =
      ["generation", "current_species", "current_genome", "fitness"] ∧
    (getInfoSt p).2 = p :=
  ⟨rfl, rfl⟩

/-- Witness for C7 on a freshly generated population. -/
theorem getInfo_keys_and_pure_witness :
    (getInfo (generate 4 1 10)).map Prod.fst =
      ["generation", "current_species", "current_genome", "fitness"] ∧
    (getInfoSt (generate 4 1 10)).2 = generate 4 1 10 :=
  getInfo_keys_and_pure (generate 4 1 10)

/-- C8: in the combined driver's end-of-match block, when both players are
NEAT-controlled, both their current genomes are assigned one and the same
fitness value `calculateFitness(result)` computed from the single final
match result and game state. -/
theorem endOfMatch_equal_fitness (result cp opp turn : Int)
    (ptype : Int → PlayerType) (p1 p2 : Int)
    (h1 : ptype p1 = PlayerType.neat) (h2 : ptype p2 = PlayerType.neat) :
    endOfMatchAssignments result cp opp turn ptype [p1, p2] =
      [(p1, calculateFitness result cp opp turn),
       (p2, calculateFitness result cp opp turn)] := by
  simp [endOfMatchAssignments, endOfMatchFitness, h1, h2]

/-- Witness for C8: concrete match where player 1 won after 5 turns. -/
theorem endOfMatch_equal_fitness_witness :
    endOfMatchAssignments 1 1 2 5 (fun _ => PlayerType.neat) [1, 2] =
      [(1, calculateFitness 1 1 2 5), (2, calculateFitness 1 1 2 5)] :=
  endOfMatch_equal_fitness 1 1 2 5 (fun _ => PlayerType.neat) 1 2 rfl rfl

/-- C10: both drivers' `setupAi` call `NEAT.load` only on a file the
`os.path.isfile` oracle confirmed to exist, and when no save file exists
they construct a fresh engine via `generate` with population 100
(`src/main.py`) respectively 50 (`src/connect4/connect4.py`). -/
theorem setupAi_guard (isfile : String → Bool) (pid : Nat)
    (pt : PlayerType) (lbl : String) :
    (∀ f, setupAiMain isfile pid pt lbl = SetupResult.loaded f →
      isfile f = true) ∧
    (∀ f, setupAiC4 isfile pid pt lbl = SetupResult.loaded f →
      isfile f = true) ∧
    ((∀ f, isfile f = false) →
      setupAiMain isfile pid pt lbl = SetupResult.generated 100 ∧
      setupAiC4 isfile pid pt lbl = SetupResult.generated 50) := by
  unfold setupAiMain setupAiC4
  refine ⟨?_, ?_, ?_⟩
  · intro f h
    split at h <;> split at h <;> simp_all
  · intro f h
    split at h <;> split at h <;> simp_all
  · intro hall
    simp [hall]

/-- Witness for C10 with no save files on disk. -/
theorem setupAi_guard_witness :
    setupAiMain (fun _ => false) 1 PlayerType.neat "1"
        = SetupResult.generated 100 ∧
      setupAiC4 (fun _ => false) 1 PlayerType.neat "1"
        = SetupResult.generated 50 :=
  (setupAi_guard (fun _ => false) 1 PlayerType.neat "1").2.2 (fun _ => rfl)

/-- Helper: `modifyIdx` preserves list length. -/
theorem modifyIdx_length (f : α → α) (i : Nat) (l : List α) :
    (modifyIdx f i l).length = l.length := by
  induction l generalizing i with
  | nil => cases i <;> rfl
  | cons x xs ih =>
    cases i with
    | zero => rfl
    | succ n => simp [modifyIdx, ih]

/-- Helper: mapping a function that `modifyIdx`'s update leaves invariant
commutes past the update. -/
theorem map_modifyIdx (h : α → β) (f : α → α) (hf : ∀ x, h (f x) = h x)
    (i : Nat) (l : List α) : (modifyIdx f i l).map h = l.map h := by
  induction l generalizing i with
  | nil => cases i <;> rfl
  | cons x xs ih =>
    cases i with
    | zero => simp [modifyIdx, hf]
    | succ n => simp [modifyIdx, ih]

/-- The species sizes of a population — the observable that drives
`nextGenome`'s control flow. -/
def sizesOf (p : Population) : List Nat :=
  p.species.map (fun s => s.members.length)

/-- Helper: assigning a fitness to the current genome does not change any
species size. -/
theorem sizesOf_setCurrentFitness (f : Int) (p : Population) :
    sizesOf (setCurrentFitness f p) = sizesOf p := by
  unfold sizesOf setCurrentFitness
  exact map_modifyIdx _ _ (fun s => by simp [modifyIdx_length]) _ _

/-- Helper: `nextGenome` in the mid-generation case — a single species
whose members are not yet exhausted — advances only `current_genome`. -/
theorem nextGenome_advance (repro : Population → List Species) (name : String)
    (p : Population) (s : Species) (hsp : p.species = [s])
    (hcs : p.current_species = 0)
    (hlt : p.current_genome + 1 < s.members.length) :
    sizesOf (nextGenome repro name p).1 = sizesOf p ∧
    (nextGenome repro name p).1.current_species = 0 ∧
    (nextGenome repro name p).1.current_genome = p.current_genome + 1 ∧
    (nextGenome repro name p).1.generation = p.generation := by
  unfold nextGenome
  simp only [hsp, hcs, List.getElem?_cons_zero, if_pos hlt, sizesOf]
  exact ⟨trivial, trivial, trivial, trivial⟩

/-- Helper: `nextGenome` at the end of a generation — a single species
whose members are exhausted — increments the generation counter and resets
both iteration indices. -/
theorem nextGenome_endgen (repro : Population → List Species) (name : String)
    (p : Population) (s : Species) (hsp : p.species = [s])
    (hcs : p.current_species = 0)
    (hge : ¬ p.current_genome + 1 < s.members.length) :
    (nextGenome repro name p).1.current_species = 0 ∧
    (nextGenome repro name p).1.current_genome = 0 ∧
    (nextGenome repro name p).1.generation = p.generation + 1 := by
  unfold nextGenome
  have hlen : ¬ (0 : Nat) + 1 < ([s] : List Species).length := by simp
  simp only [hsp, hcs, List.getElem?_cons_zero, if_neg hge, if_neg hlen]
  exact ⟨trivial, trivial, trivial⟩

/-- Helper: one mid-generation scenario step keeps the single
10-member-species shape, keeps generation 0 and advances
`current_genome`. -/
theorem scenarioStep_mid (repro : Population → List Species) (i : Nat)
    (p : Population) (hs : sizesOf p = [10]) (hcs : p.current_species = 0)
    (hgen : p.generation = 0) (hk : p.current_genome + 1 < 10) :
    sizesOf (scenarioStep repro i p) = [10] ∧
    (scenarioStep repro i p).current_species = 0 ∧
    (scenarioStep repro i p).current_genome = p.current_genome + 1 ∧
    (scenarioStep repro i p).generation = 0 := by
  have hqs : sizesOf (setCurrentFitness ((10 : Int) - i) p) = [10] := by
    rw [sizesOf_setCurrentFitness, hs]
  obtain ⟨s, hsp, hlen⟩ :
      ∃ s, (setCurrentFitness ((10 : Int) - i) p).species = [s] ∧
        s.members.length = 10 := by
    rcases hqsp : (setCurrentFitness ((10 : Int) - i) p).species with _ | ⟨a, _ | ⟨b, u⟩⟩
    · rw [sizesOf, hqsp] at hqs; simp at hqs
    · exact ⟨a, rfl, by rw [sizesOf, hqsp] at hqs; simpa using hqs⟩
    · rw [sizesOf, hqsp] at hqs; simp at hqs
  have hcs2 : (setCurrentFitness ((10 : Int) - i) p).current_species = 0 := hcs
  have hcg2 : (setCurrentFitness ((10 : Int) - i) p).current_genome
      = p.current_genome := rfl
  have hgen2 : (setCurrentFitness ((10 : Int) - i) p).generation = 0 := hgen
  have hlt : (setCurrentFitness ((10 : Int) - i) p).current_genome + 1
      < s.members.length := by rw [hcg2, hlen]; exact hk
  obtain ⟨h1, h2, h3, h4⟩ :=
    nextGenome_advance repro "ai_1" (setCurrentFitness ((10 : Int) - i) p)
      s hsp hcs2 hlt
  exact ⟨by rw [scenarioStep, h1, hqs], by rw [scenarioStep, h2],
    by rw [scenarioStep, h3, hcg2], by rw [scenarioStep, h4, hgen2]⟩

/-- Helper: the final scenario step — the tenth genome was the last — rolls
the generation over and resets `current_genome`. -/
theorem scenarioStep_last (repro : Population → List Species) (i : Nat)
    (p : Population) (hs : sizesOf p = [10]) (hcs : p.current_species = 0)
    (hgen : p.generation = 0) (hk : p.current_genome = 9) :
    (scenarioStep repro i p).generation = 1 ∧
    (scenarioStep repro i p).current_genome = 0 := by
  have hqs : sizesOf (setCurrentFitness ((10 : Int) - i) p) = [10] := by
    rw [sizesOf_setCurrentFitness, hs]
  obtain ⟨s, hsp, hlen⟩ :
      ∃ s, (setCurrentFitness ((10 : Int) - i) p).species = [s] ∧
        s.members.length = 10 := by
    rcases hqsp : (setCurrentFitness ((10 : Int) - i) p).species with _ | ⟨a, _ | ⟨b, u⟩⟩
    · rw [sizesOf, hqsp] at hqs; simp at hqs
    · exact ⟨a, rfl, by rw [sizesOf, hqsp] at hqs; simpa using hqs⟩
    · rw [sizesOf, hqsp] at hqs; simp at hqs
  have hcs2 : (setCurrentFitness ((10 : Int) - i) p).current_species = 0 := hcs
  have hcg2 : (setCurrentFitness ((10 : Int) - i) p).current_genome = 9 := hk
  have hgen2 : (setCurrentFitness ((10 : Int) - i) p).generation = 0 := hgen
  have hge : ¬ (setCurrentFitness ((10 : Int) - i) p).current_genome + 1
      < s.members.length := by rw [hcg2, hlen]; decide
  obtain ⟨_, h2, h3⟩ :=
    nextGenome_endgen repro "ai_1" (setCurrentFitness ((10 : Int) - i) p)
      s hsp hcs2 hge
  exact ⟨by rw [scenarioStep, h3, hgen2], by rw [scenarioStep, h2]⟩

/-- C4: starting from `generate(inputs=4, outputs=1, population_size=10)`,
after ten rounds of assigning fitness `10 - index` to the current genome
and calling `nextGenome`, the generation counter equals 1 and
`current_genome` equals 0 — for every reproduction function. -/
theorem scenario_generation_reset (repro : Population → List Species) :
    (scenarioC4 repro).generation = 1 ∧ (scenarioC4 repro).current_genome = 0 := by
  have h0 : sizesOf (generate 4 1 10) = [10] ∧
      (generate 4 1 10).current_species = 0 ∧
      (generate 4 1 10).current_genome = 0 ∧
      (generate 4 1 10).generation = 0 := by
    refine ⟨?_, rfl, rfl, rfl⟩
    simp [sizesOf, generate]
  have hunf : scenarioC4 repro
      = scenarioStep repro 9 (scenarioStep repro 8 (scenarioStep repro 7
          (scenarioStep repro 6 (scenarioStep repro 5 (scenarioStep repro 4
            (scenarioStep repro 3 (scenarioStep repro 2 (scenarioStep repro 1
              (scenarioStep repro 0 (generate 4 1 10)))))))))) := by
    rw [scenarioC4]
    rfl
  obtain ⟨a0, b0, c0, d0⟩ := h0
  obtain ⟨a1, b1, c1, d1⟩ := scenarioStep_mid repro 0 _ a0 b0 d0 (by rw [c0]; decide)
  obtain ⟨a2, b2, c2, d2⟩ := scenarioStep_mid repro 1 _ a1 b1 d1 (by rw [c1, c0]; decide)
  obtain ⟨a3, b3, c3, d3⟩ := scenarioStep_mid repro 2 _ a2 b2 d2 (by rw [c2, c1, c0]; decide)
  obtain ⟨a4, b4, c4, d4⟩ := scenarioStep_mid repro 3 _ a3 b3 d3 (by rw [c3, c2, c1, c0]; decide)
  obtain ⟨a5, b5, c5, d5⟩ := scenarioStep_mid repro 4 _ a4 b4 d4 (by rw [c4, c3, c2, c1, c0]; decide)
  obtain ⟨a6, b6, c6, d6⟩ := scenarioStep_mid repro 5 _ a5 b5 d5 (by rw [c5, c4, c3, c2, c1, c0]; decide)
  obtain ⟨a7, b7, c7, d7⟩ := scenarioStep_mid repro 6 _ a6 b6 d6 (by rw [c6, c5, c4, c3, c2, c1, c0]; decide)
  obtain ⟨a8, b8, c8, d8⟩ := scenarioStep_mid repro 7 _ a7 b7 d7 (by rw [c7, c6, c5, c4, c3, c2, c1, c0]; decide)
  obtain ⟨a9, b9, c9, d9⟩ := scenarioStep_mid repro 8 _ a8 b8 d8 (by rw [c8, c7, c6, c5, c4, c3, c2, c1, c0]; decide)
  have hfin := scenarioStep_last repro 9 _ a9 b9 d9 (by
    rw [c9, c8, c7, c6, c5, c4, c3, c2, c1, c0])
  rw [hunf]
  exact hfin

/-- Witness for C4 at the trivial reproduction function. -/
theorem scenario_generation_reset_witness :
    (scenarioC4 (fun _ => [])).generation = 1 ∧
      (scenarioC4 (fun _ => [])).current_genome = 0 :=
  scenario_generation_reset (fun _ => [])

/-- Helper: regrouping the flattened member lists by the saved sizes
recovers the per-species member lists. -/
theorem splitSizes_flatMap (ss : List Species) :
    splitSizes (ss.map (fun s => s.members.length)) (ss.flatMap Species.members)
      = ss.map Species.members := by
  induction ss with
  | nil => rfl
  | cons s ss ih =>
    simp only [List.map_cons, List.flatMap_cons, splitSizes]
    rw [List.take_left, List.drop_left, ih]

/-- Helper: reassembling members, representatives and stagnation counters
recovers the original species list. -/
theorem zipWith_reassemble (ss : List Species) :
    List.zipWith
      (fun ms rs => { representative := rs.1, members := ms, stagnation := rs.2 })
      (ss.map Species.members)
      ((ss.map Species.representative).zip (ss.map Species.stagnation)) = ss := by
  induction ss with
  | nil => rfl
  | cons s ss ih => simp [ih]

/-- C5: a save followed by a load reconstructs a structurally identical
population — same node/connection graph (disabled connections and
innovation ids included, since genomes are compared whole), same
per-genome fitness, generation counter and global innovation counter —
and the loaded innovation counter is never lower than its saved value. -/
theorem save_load_roundtrip (p : Population) :
    ofSave (toSave p) = p ∧
      (ofSave (toSave p)).innovation ≥ (toSave p).innovation := by
  have hmain : ofSave (toSave p) = p := by
    obtain ⟨ss, gen, cs, cg, bg, inn⟩ := p
    simp only [ofSave, toSave, splitSizes_flatMap, zipWith_reassemble]
  refine ⟨hmain, ?_⟩
  rw [hmain]
  exact le_refl _

/-- Witness for C5 on a freshly generated population. -/
theorem save_load_roundtrip_witness :
    ofSave (toSave (generate 4 1 10)) = generate 4 1 10 ∧
      (ofSave (toSave (generate 4 1 10))).innovation
        ≥ (toSave (generate 4 1 10)).innovation :=
  save_load_roundtrip (generate 4 1 10)

/-- C6: `forward` fails with `InvalidInputSize` if and only if the input
count differs from the number of Input-type nodes, and on success it
returns exactly one activation per Output-type node. -/
theorem forward_invalid_iff (act : Rat → Rat) (g : Genome)
    (inputs : List Rat) :
    (forward act g inputs = Except.error NeatError.invalidInputSize ↔
      inputs.length ≠ (inputNodes g).length) ∧
    (∀ ys, forward act g inputs = Except.ok ys →
      ys.length = (outputNodes g).length) := by
  constructor
  · constructor
    · intro h hlen
      rw [forward, if_neg] at h
      · exact Except.noConfusion h
      · simpa using hlen
    · intro hlen
      rw [forward, if_pos hlen]
  · intro ys hy
    by_cases hlen : inputs.length ≠ (inputNodes g).length
    · rw [forward, if_pos hlen] at hy
      exact Except.noConfusion hy
    · rw [forward, if_neg hlen] at hy
      injection hy with h
      rw [← h, forwardOutputs, List.length_map]

/-- Witness for C6 on a 2-input/1-output genome: a 1-element input vector
is rejected, and the successful 2-element evaluation returns one output
per Output node. -/
theorem forward_invalid_iff_witness :
    forward (fun x => x) g2i1o [1]
        = Except.error NeatError.invalidInputSize ∧
      [(0 : Rat)].length = (outputNodes g2i1o).length :=
  ⟨(forward_invalid_iff (fun x => x) g2i1o [1]).1.mpr (by decide),
   (forward_invalid_iff (fun x => x) g2i1o [1, 1]).2 [0] (by rfl)⟩

/-- Helper: membership in the valid-move list. -/
theorem validMoves_mem (cols : Nat) (gpm : Nat → Int × Nat) (invalid : Int)
    (m : Int × Nat) :
    m ∈ validMoves cols gpm invalid ↔
      (∃ i, i < cols ∧ gpm i = m) ∧ m.1 ≠ invalid := by
  simp [validMoves, List.mem_filter, List.mem_map, List.mem_range, bne_iff_ne]

/-- C9: under the oracles' contracts — `choose` picks a member of a
nonempty list, `getPossibleMove i` carries its column `i` — whenever some
column admits a valid move, `neatMove` returns (without failing) the
column of a valid move whose score is maximal among all valid moves; and
when no column admits a valid move, `neatMove` fails with `none`. -/
theorem neatMove_spec (cols : Nat) (gpm : Nat → Int × Nat) (invalid : Int)
    (score : Int × Nat → Rat)
    (choose : List (Int × Nat) → Option (Int × Nat))
    (hmem : ∀ l m, choose l = some m → m ∈ l)
    (hne : ∀ l, l ≠ [] → choose l ≠ none)
    (hcol : ∀ i, i < cols → (gpm i).2 = i) :
    ((∃ i, i < cols ∧ (gpm i).1 ≠ invalid) →
      ∃ c, neatMove cols gpm invalid score choose = some c ∧ c < cols ∧
        (gpm c).1 ≠ invalid ∧
        ∀ j, j < cols → (gpm j).1 ≠ invalid →
          score (gpm j) ≤ score (gpm c)) ∧
    ((∀ i, i < cols → (gpm i).1 = invalid) →
      neatMove cols gpm invalid score choose = none) := by
  constructor
  · rintro ⟨i, hi, hvi⟩
    have hmemi : gpm i ∈ validMoves cols gpm invalid :=
      (validMoves_mem cols gpm invalid (gpm i)).mpr ⟨⟨i, hi, rfl⟩, hvi⟩
    cases hmax : ((validMoves cols gpm invalid).map score).max? with
    | none =>
      rw [List.max?_eq_none_iff, List.map_eq_nil_iff] at hmax
      rw [hmax] at hmemi
      exact absurd hmemi (List.not_mem_nil _)
    | some s =>
      obtain ⟨hs_mem, hs_ub⟩ := ratMaxSome _ _ hmax
      obtain ⟨m0, hm0_mem, hm0s⟩ := List.mem_map.mp hs_mem
      have hfmem : m0 ∈ (validMoves cols gpm invalid).filter
          (fun m => decide (score m = s)) :=
        List.mem_filter.mpr ⟨hm0_mem, by simp [hm0s]⟩
      cases hch : choose ((validMoves cols gpm invalid).filter
          (fun m => decide (score m = s))) with
      | none => exact absurd hch (hne _ (List.ne_nil_of_mem hfmem))
      | some m =>
        obtain ⟨hm_mem, hm_dec⟩ := List.mem_filter.mp (hmem _ _ hch)
        have hms : score m = s := of_decide_eq_true hm_dec
        obtain ⟨⟨j, hj, hgj⟩, hmv⟩ :=
          (validMoves_mem cols gpm invalid m).mp hm_mem
        have hcj : m.2 = j := by rw [← hgj]; exact hcol j hj
        have hgc : gpm m.2 = m := by rw [hcj, hgj]
        refine ⟨m.2, ?_, ?_, ?_, ?_⟩
        · rw [neatMove, hmax, Option.some_bind, hch, Option.map_some']
        · rw [hcj]; exact hj
        · rw [hgc]; exact hmv
        · intro j2 hj2 hv2
          rw [hgc, hms]
          exact hs_ub _ (List.mem_map_of_mem score
            ((validMoves_mem cols gpm invalid (gpm j2)).mpr ⟨⟨j2, hj2, rfl⟩, hv2⟩))
  · intro hall
    have hnil : validMoves cols gpm invalid = [] := by
      rw [validMoves, List.filter_eq_nil_iff]
      intro a ha
      obtain ⟨i2, hi2, hgi2⟩ := List.mem_map.mp ha
      rw [List.mem_range] at hi2
      simp [← hgi2, hall i2 hi2]
    rw [neatMove, hnil]
    rfl

/-- Witness for C9: a 2-column board where every column is open, all
scores are equal and the chooser takes the head of the maximal list. -/
theorem neatMove_spec_witness :
    ∃ c, neatMove 2 (fun i => (0, i)) (-1) (fun _ => 0) List.head?
          = some c ∧ c < 2 ∧
        ((fun i => ((0 : Int), i)) c).1 ≠ -1 ∧
        ∀ j, j < 2 → ((fun i => ((0 : Int), i)) j).1 ≠ -1 →
          (fun (_ : Int × Nat) => (0 : Rat)) ((fun i => ((0 : Int), i)) j)
            ≤ (fun (_ : Int × Nat) => (0 : Rat)) ((fun i => ((0 : Int), i)) c) :=
  (neatMove_spec 2 (fun i => (0, i)) (-1) (fun _ => 0) List.head?
    (fun l m h => by
      cases l with
      | nil => exact absurd h (by simp)
      | cons a t =>
        rw [List.head?_cons, Option.some_inj] at h
        rw [← h]; exact List.mem_cons_self a t)
    (fun l hl => by
      cases l with
      | nil => exact absurd rfl hl
      | cons a t => simp)
    (fun i _ => rfl)).1 ⟨0, by decide, by decide⟩

end NEATSpec
